import Mathlib

/-!
Verification development for the topk-io/bench repository: a shallow embedding
of the benchmark dispatcher (`bench.py`) and of the five backend adapters
(`topk_bench/providers/*.py`), together with theorems settling the frozen
claims about the spec.

Modelling conventions:
* Python `str` is Lean `String` (a wrapper around `List Char` in this toolchain).
* Python `int` is Lean `Int`; `float` vector entries are abstracted to `ℚ`
  (no claim inspects an embedding value).
* Fallible Python code (raising) is embedded with `Except String`.
* Each backend's approximate-nearest-neighbour ranking is abstracted as the
  order of the candidate list handed to the query model; every claim settled
  here is independent of ranking order.
-/

namespace TopkBench

/-! ### Canonical document model (`topk_bench` Document) -/

/-- Canonical record shared by all backends: `id`, `text`, optional 768-dim
dense embedding (values abstracted to `ℚ`), `int_filter`, `keyword_filter`. -/
structure Document where
  id : String
  text : String
  dense_embedding : Option (List ℚ) := none
  int_filter : Int
  keyword_filter : String
deriving Repr, DecidableEq

/-! ### Python string primitives used by the adapters

`doc.keyword_filter.split(" ")` and `" ".join(xs)` are modelled directly on the
character list: Python `split(" ")` splits at every single space and keeps
empty fields. -/

/-- Accumulator-style split on the space character, keeping empty fields,
exactly like Python `s.split(" ")`. -/
def splitSpaceAux : List Char → List Char → List (List Char)
  | [], acc => [acc.reverse]
  | c :: cs, acc =>
      if c = ' ' then acc.reverse :: splitSpaceAux cs []
      else splitSpaceAux cs (c :: acc)

/-- Python `s.split(" ")`. -/
def pySplitSpace (s : String) : List String :=
  (splitSpaceAux s.data []).map String.mk

/-- Character-level `" ".join`. -/
def joinSpaceChars : List (List Char) → List Char
  | [] => []
  | [x] => x
  | x :: xs => x ++ ' ' :: joinSpaceChars xs

/-- Python `" ".join(xs)`. -/
def pyJoinSpace (xs : List String) : String :=
  String.mk (joinSpaceChars (xs.map String.data))

/-- The whitespace token list of a keyword field: split fields with empties
dropped (matching analyzer tokenisation of the space-separated values the
benchmark stores). -/
def tokens (s : String) : List String :=
  (pySplitSpace s).filter (fun t => t != "")

/-- Every token of `k` occurs among the tokens of `s` (canonical
all-tokens-match predicate). -/
def allTokens (k s : String) : Bool :=
  (tokens k).all (fun t => (tokens s).contains t)

/-- Some token of `k` occurs among the tokens of `s` (any-token match). -/
def anyToken (k s : String) : Bool :=
  (tokens k).any (fun t => (tokens s).contains t)

/-- Python `int(s)` on a decimal literal with optional leading minus sign:
`some` of the value, `none` when Python would raise `ValueError`.
(Surrounding whitespace and underscore separators, which Python also accepts,
do not occur in this system's ids.) -/
def pyDigitsValAux : List Char → Nat → Option Nat
  | [], acc => some acc
  | c :: cs, acc =>
      if c.isDigit then pyDigitsValAux cs (acc * 10 + (c.toNat - 48)) else none

/-- Value of a nonempty all-digit character list, `none` otherwise. -/
def pyDigitsVal : List Char → Option Nat
  | [] => none
  | c :: cs => pyDigitsValAux (c :: cs) 0

/-- Python `int(s)` (see `pyDigitsValAux`). -/
def pyInt (s : String) : Option Int :=
  match s.data with
  | '-' :: rest => (pyDigitsVal rest).map (fun n => -(n : Int))
  | l => (pyDigitsVal l).map (fun n => (n : Int))

/-! Identity `" ".join(s.split(" ")) = s`, used by the round-trip claims. -/

lemma splitSpaceAux_ne_nil (cs acc : List Char) : splitSpaceAux cs acc ≠ [] := by
  induction cs generalizing acc with
  | nil => simp [splitSpaceAux]
  | cons c cs ih =>
      rw [splitSpaceAux]
      split
      · exact List.cons_ne_nil _ _
      · exact ih _

lemma joinSpaceChars_splitSpaceAux (cs acc : List Char) :
    joinSpaceChars (splitSpaceAux cs acc) = acc.reverse ++ cs := by
  induction cs generalizing acc with
  | nil => simp [splitSpaceAux, joinSpaceChars]
  | cons c cs ih =>
      rw [splitSpaceAux]
      by_cases hc : c = ' '
      · rw [if_pos hc]
        obtain ⟨x, xs, hx⟩ := List.exists_cons_of_ne_nil (splitSpaceAux_ne_nil cs [])
        rw [hx]
        show acc.reverse ++ ' ' :: joinSpaceChars (x :: xs) = acc.reverse ++ c :: cs
        rw [← hx, ih [], hc]
        simp
      · rw [if_neg hc, ih (c :: acc)]
        simp

lemma pyJoin_pySplit (s : String) : pyJoinSpace (pySplitSpace s) = s := by
  show String.mk (joinSpaceChars (((splitSpaceAux s.data []).map String.mk).map String.data)) = s
  rw [List.map_map]
  have hdm : (String.data ∘ String.mk) = id := rfl
  rw [hdm, List.map_id, joinSpaceChars_splitSpaceAux]
  rfl

/-! ### Dispatcher (`bench.py`, `run`)

A submitted task is modelled by the outcome of awaiting its handle
(`handle.get()`): `Except.ok` for normal return, `Except.error msg` when the
awaited task raises with message `msg`. -/

/-- Outcome of one `run(tasks)` call: the handles awaited (in order) and the
final result, where the aggregate error carries the failure count and the
collected error messages (mirroring
`raise Exception(f"... tasks failed: ...")`). -/
structure RunOutcome where
  awaited : List (Except String Unit)
  result : Except (Nat × List String) Unit
deriving Repr

/-- The dispatcher loop body: awaits each task in submission order; on failure
appends the error and continues (no cancellation of siblings). Returns the
await trace and the accumulated error messages. -/
def runLoop : List (Except String Unit) → List (Except String Unit) × List String
  | [] => ([], [])
  | t :: ts =>
      let rest := runLoop ts
      (t :: rest.1,
        match t with
        | .ok _ => rest.2
        | .error e => e :: rest.2)

/-- `run(tasks)` from `bench.py`: await all handles in submission order,
collect failures, then raise one aggregate exception iff any task failed. -/
def run (tasks : List (Except String Unit)) : RunOutcome :=
  let p := runLoop tasks
  { awaited := p.1,
    result := if p.2.isEmpty then .ok () else .error (p.2.length, p.2) }

/-- The error messages of the failing tasks, in submission order. -/
def taskErrors (tasks : List (Except String Unit)) : List String :=
  tasks.filterMap (fun t => match t with | .ok _ => none | .error e => some e)

lemma runLoop_fst (tasks : List (Except String Unit)) : (runLoop tasks).1 = tasks := by
  induction tasks with
  | nil => rfl
  | cons t ts ih => simp [runLoop, ih]

lemma runLoop_snd (tasks : List (Except String Unit)) :
    (runLoop tasks).2 = taskErrors tasks := by
  induction tasks with
  | nil => rfl
  | cons t ts ih =>
      cases t with
      | ok u => simp [runLoop, taskErrors, ih]
      | error e => simp [runLoop, taskErrors, ih]

/-- C1: for every finite list of submitted tasks of which exactly K raise on
await, `run` awaits every handle in submission order (continuing past each
failure), and after all handles resolve it raises a single aggregate error iff
K > 0, reporting failure count K and the collected error messages; when K = 0
it returns normally. -/
theorem C1_run_awaits_all_and_aggregates (tasks : List (Except String Unit)) :
    (run tasks).awaited = tasks ∧
    (run tasks).result =
      (if (taskErrors tasks).length = 0 then .ok ()
       else .error ((taskErrors tasks).length, taskErrors tasks)) ∧
    ((run tasks).result = .ok () ↔ (taskErrors tasks).length = 0) := by
  have h1 : (run tasks).awaited = tasks := runLoop_fst tasks
  have h2 : (run tasks).result =
      (if (taskErrors tasks).length = 0 then .ok ()
       else .error ((taskErrors tasks).length, taskErrors tasks)) := by
    show (if (runLoop tasks).2.isEmpty then (Except.ok () : Except (Nat × List String) Unit)
          else .error ((runLoop tasks).2.length, (runLoop tasks).2)) = _
    rw [runLoop_snd]
    cases h : taskErrors tasks with
    | nil => simp
    | cons a l => simp
  refine ⟨h1, h2, ?_⟩
  rw [h2]
  by_cases h : (taskErrors tasks).length = 0
  · simp [h]
  · simp [h]

/-! ### Adapter filter translation and query models

Each adapter builds a native filter from the optional `int_filter` /
`keyword_filter` arguments exactly as its `query` method does, and the
backend's evaluation of the native primitives is modelled from their
documented semantics. The ANN ranking is abstracted as the candidate order. -/

/-- Native Turbopuffer filter conditions built by `TurbopufferProvider.query`:
`("int_filter", "Lte", x)` and `("keyword_filter", "ContainsAllTokens", k)`. -/
inductive TpufCond where
  | lte (x : Int)
  | containsAllTokens (k : String)
deriving Repr, DecidableEq

/-- Filter construction in `TurbopufferProvider.query`. The guards are Python
truthiness tests (`if int_filter:` / `if keyword_filter:`), so the value `0`
and the empty string are dropped exactly like `None`. -/
def tpufFilters (int_filter : Option Int) (keyword_filter : Option String) :
    List TpufCond :=
  (match int_filter with
   | some x => if x ≠ 0 then [TpufCond.lte x] else []
   | none => []) ++
  (match keyword_filter with
   | some s => if s ≠ "" then [TpufCond.containsAllTokens s] else []
   | none => [])

/-- Documented Turbopuffer semantics of the built conditions: `Lte` is numeric
comparison, `ContainsAllTokens` requires every token of the filter string. -/
def evalTpufCond (d : Document) : TpufCond → Bool
  | .lte x => d.int_filter ≤ x
  | .containsAllTokens s => allTokens s d.keyword_filter

/-- `TurbopufferProvider.query`: conjunction (`And`) of the built conditions
over the ranked candidates, truncated to `top_k`. -/
def tpufQuery (ranked : List Document) (top_k : Nat)
    (int_filter : Option Int) (keyword_filter : Option String) : List Document :=
  (ranked.filter (fun d => (tpufFilters int_filter keyword_filter).all (evalTpufCond d))).take top_k

/-- Native Milvus filter conditions built by `MilvusProvider.query`:
the expression strings `int_filter <= x` and `TEXT_MATCH(keyword_filter, k)`. -/
inductive MilvusCond where
  | intLte (x : Int)
  | textMatch (k : String)
deriving Repr, DecidableEq

/-- Filter construction in `MilvusProvider.query` (`is not None` guards). -/
def milvusFilters (int_filter : Option Int) (keyword_filter : Option String) :
    List MilvusCond :=
  (match int_filter with
   | some x => [MilvusCond.intLte x]
   | none => []) ++
  (match keyword_filter with
   | some s => [MilvusCond.textMatch s]
   | none => [])

/-- Documented Milvus semantics: `int_filter <= x` is numeric comparison;
`TEXT_MATCH(field, terms)` is term match — the document matches when its
analyzed token set contains AT LEAST ONE of the query terms (multiple
space-separated terms are OR-ed), not all of them. -/
def evalMilvusCond (d : Document) : MilvusCond → Bool
  | .intLte x => d.int_filter ≤ x
  | .textMatch s => anyToken s d.keyword_filter

/-- `MilvusProvider.query`: `" and ".join(filters)` over the ranked
candidates, truncated to `top_k` (`limit`). -/
def milvusQuery (ranked : List Document) (top_k : Nat)
    (int_filter : Option Int) (keyword_filter : Option String) : List Document :=
  (ranked.filter (fun d => (milvusFilters int_filter keyword_filter).all (evalMilvusCond d))).take top_k

/-- A Pinecone record as stored by `PineconeProvider.upsert`: the id, the
embedding (not modelled — never read back), and the metadata dict, whose
`keyword_filter` entry is the list `doc.keyword_filter.split(" ")`. -/
structure PineconeVector where
  id : String
  metadata_text : String
  metadata_int_filter : Int
  metadata_keyword_filter : List String
deriving Repr, DecidableEq

/-- The stored form of an upserted document (`PineconeProvider.upsert`). -/
def pineconeVectorOfDoc (d : Document) : PineconeVector :=
  { id := d.id,
    metadata_text := d.text,
    metadata_int_filter := d.int_filter,
    metadata_keyword_filter := pySplitSpace d.keyword_filter }

/-- Documented Pinecone metadata-filter semantics for the filter dict built in
`PineconeProvider.query`: `$lte` is numeric comparison; for a list-valued
metadata field, `keyword_filter: ($in, [K])` matches when some element of the
stored list lies in the given list — here, when the WHOLE filter string `K` is
one of the stored tokens. -/
def pineconeFilterPred (int_filter : Option Int) (keyword_filter : Option String)
    (v : PineconeVector) : Bool :=
  (match int_filter with
   | some x => v.metadata_int_filter ≤ x
   | none => true) &&
  (match keyword_filter with
   | some s => v.metadata_keyword_filter.contains s
   | none => true)

/-- `to_document` in `providers/pinecone.py`: metadata read back, the token
list re-joined with spaces, `int()` applied to the numeric metadata value
(identity here — the metadata number is the stored integer). -/
def pineconeToDocument (v : PineconeVector) : Document :=
  { id := v.id,
    text := v.metadata_text,
    int_filter := v.metadata_int_filter,
    keyword_filter := pyJoinSpace v.metadata_keyword_filter }

/-- `PineconeProvider.query` over the ranked stored vectors. -/
def pineconeQuery (ranked : List PineconeVector) (top_k : Nat)
    (int_filter : Option Int) (keyword_filter : Option String) : List Document :=
  ((ranked.filter (pineconeFilterPred int_filter keyword_filter)).take top_k).map pineconeToDocument

/-- A Qdrant point as stored by `QdrantProvider.upsert`: integer id
(`int(doc.id)`) and a payload whose `keyword_filter` entry is the list
`doc.keyword_filter.split(" ")`. -/
structure QdrantPoint where
  id : Int
  payload_text : String
  payload_int_filter : Int
  payload_keyword_filter : List String
deriving Repr, DecidableEq

/-- The stored form of an upserted document (`QdrantProvider.upsert`);
`int(doc.id)` raises `ValueError` on a non-integer id. -/
def qdrantPointOfDoc (d : Document) : Except String QdrantPoint :=
  match pyInt d.id with
  | some n =>
      .ok { id := n,
            payload_text := d.text,
            payload_int_filter := d.int_filter,
            payload_keyword_filter := pySplitSpace d.keyword_filter }
  | none => .error ("ValueError: invalid literal for int: " ++ d.id)

/-- Documented Qdrant semantics for the conditions built in
`QdrantProvider.query`: `Range(lte=x)` is numeric comparison;
`MatchValue(value=K)` on an array payload field matches when at least one
stored element equals `K` — here, when the WHOLE filter string `K` is one of
the stored tokens. -/
def qdrantFilterPred (int_filter : Option Int) (keyword_filter : Option String)
    (p : QdrantPoint) : Bool :=
  (match int_filter with
   | some x => p.payload_int_filter ≤ x
   | none => true) &&
  (match keyword_filter with
   | some s => p.payload_keyword_filter.contains s
   | none => true)

/-- `to_document` in `providers/qdrant.py`: `str(point.id)`, payload fields
read back, the stored token list re-joined with spaces. -/
def qdrantToDocument (p : QdrantPoint) : Document :=
  { id := toString p.id,
    text := p.payload_text,
    int_filter := p.payload_int_filter,
    keyword_filter := pyJoinSpace p.payload_keyword_filter }

/-- `QdrantProvider.query` (`Filter(must=...)` over the ranked points). -/
def qdrantQuery (ranked : List QdrantPoint) (top_k : Nat)
    (int_filter : Option Int) (keyword_filter : Option String) : List Document :=
  ((ranked.filter (qdrantFilterPred int_filter keyword_filter)).take top_k).map qdrantToDocument

/-- Filter construction in `TopKProvider.query` (`is not None` guards), with
the documented TopK semantics: `lte` is numeric comparison and `match_all`
requires every token of the filter string. -/
def topkFilterPred (int_filter : Option Int) (keyword_filter : Option String)
    (d : Document) : Bool :=
  (match int_filter with
   | some x => d.int_filter ≤ x
   | none => true) &&
  (match keyword_filter with
   | some s => allTokens s d.keyword_filter
   | none => true)

/-- `TopKProvider.query` over the ranked candidates (`topk(..., top_k)`). -/
def topkQuery (ranked : List Document) (top_k : Nat)
    (int_filter : Option Int) (keyword_filter : Option String) : List Document :=
  (ranked.filter (topkFilterPred int_filter keyword_filter)).take top_k

lemma mem_filter_take {α : Type} {p : α → Bool} {l : List α} {n : Nat} {a : α}
    (h : a ∈ (l.filter p).take n) : a ∈ l ∧ p a = true :=
  List.mem_filter.mp (List.take_subset _ _ h)

/-! ### C2: int_filter lowering -/

/-- Concrete document used by the C2 theorems. -/
def d5 : Document :=
  { id := "1", text := "t", int_filter := 5, keyword_filter := "k" }

/-- C2 counterexample: with `int_filter = 0`, Turbopuffer's truthiness guard
(`if int_filter:`) drops the condition entirely, so a document with
`int_filter = 5` is returned although `5 ≤ 0` fails; the lowering is not
exact across all five backends at `X = 0`. -/
theorem C2_counterexample :
    d5 ∈ tpufQuery [d5] 10 (some 0) none ∧ ¬ (d5.int_filter ≤ 0) := by
  decide

/-- C2 (amended): every adapter lowers `int_filter = X` to a native `≤ X`
comparison, and every returned document satisfies `int_filter ≤ X` — for TopK,
Milvus, Pinecone and Qdrant at every threshold including `X = 0`; for
Turbopuffer only at `X ≠ 0`, since its truthiness guard treats `X = 0` exactly
like an absent filter. -/
theorem C2_int_filter_lowering (X : Int) (kw : Option String) (top_k : Nat) :
    (∀ (d : Document) (docs : List Document),
        d ∈ topkQuery docs top_k (some X) kw → d.int_filter ≤ X) ∧
    (∀ (d : Document) (docs : List Document),
        d ∈ milvusQuery docs top_k (some X) kw → d.int_filter ≤ X) ∧
    (∀ (d : Document) (store : List PineconeVector),
        d ∈ pineconeQuery store top_k (some X) kw → d.int_filter ≤ X) ∧
    (∀ (d : Document) (store : List QdrantPoint),
        d ∈ qdrantQuery store top_k (some X) kw → d.int_filter ≤ X) ∧
    (X ≠ 0 → ∀ (d : Document) (docs : List Document),
        d ∈ tpufQuery docs top_k (some X) kw → d.int_filter ≤ X) ∧
    (∀ (docs : List Document),
        tpufQuery docs top_k (some 0) kw = tpufQuery docs top_k none kw) := by
  refine ⟨?_, ?_, ?_, ?_, ?_, ?_⟩
  · intro d docs h
    rcases mem_filter_take h with ⟨-, hp⟩
    simp only [topkFilterPred, Bool.and_eq_true, decide_eq_true_eq] at hp
    exact hp.1
  · intro d docs h
    rcases mem_filter_take h with ⟨-, hp⟩
    have hmem : MilvusCond.intLte X ∈ milvusFilters (some X) kw := by
      simp [milvusFilters]
    have := List.all_eq_true.mp hp _ hmem
    simpa [evalMilvusCond] using this
  · intro d store h
    rcases List.mem_map.mp h with ⟨v, hv, rfl⟩
    rcases mem_filter_take hv with ⟨-, hp⟩
    simp only [pineconeFilterPred, Bool.and_eq_true, decide_eq_true_eq] at hp
    exact hp.1
  · intro d store h
    rcases List.mem_map.mp h with ⟨p, hp0, rfl⟩
    rcases mem_filter_take hp0 with ⟨-, hp⟩
    simp only [qdrantFilterPred, Bool.and_eq_true, decide_eq_true_eq] at hp
    exact hp.1
  · intro hX d docs h
    rcases mem_filter_take h with ⟨-, hp⟩
    have hmem : TpufCond.lte X ∈ tpufFilters (some X) kw := by
      simp [tpufFilters, hX]
    have := List.all_eq_true.mp hp _ hmem
    simpa [evalTpufCond] using this
  · intro docs
    simp [tpufQuery, tpufFilters]

/-- Witness for `C2_int_filter_lowering`: applied to TopK at `X = 5` on a
singleton candidate list, and to Turbopuffer at the nonzero threshold `5`. -/
theorem C2_int_filter_lowering_witness : d5.int_filter ≤ 5 ∧ d5.int_filter ≤ 7 :=
  ⟨(C2_int_filter_lowering 5 none 10).1 d5 [d5] (by decide),
   (C2_int_filter_lowering 7 none 10).2.2.2.2.1 (by decide) d5 [d5] (by decide)⟩

/-! ### C3: keyword_filter lowering -/

/-- Concrete document whose keyword field holds the two tokens of the string
used by the C3 counterexample. -/
def dab : Document :=
  { id := "2", text := "t", int_filter := 1, keyword_filter := "a b" }

/-- C3 counterexample: on Pinecone, the adapter passes the UNSPLIT filter
string inside the `$in` list, so a stored document holding both tokens of
`K = "a b"` is NOT returned (its token list does not contain the whole
string), although every whitespace token of `K` is present — the claimed
all-tokens iff fails. -/
theorem C3_counterexample :
    allTokens "a b" dab.keyword_filter = true ∧
    pineconeQuery [pineconeVectorOfDoc dab] 1 none (some "a b") = [] := by
  decide

/-- C3 (amended): the keyword lowering is all-tokens-match only on TopK
(`match_all`) and Turbopuffer (`ContainsAllTokens`, nonempty filter string);
Milvus `TEXT_MATCH` matches documents containing at least one token of `K`;
Pinecone (`$in [K]`) and Qdrant (`MatchValue(K)`) match documents whose stored
token list contains the whole string `K`. All are ANDed with any int_filter
predicate. -/
theorem C3_keyword_lowering (K : String) (i : Option Int) (top_k : Nat) :
    (∀ (d : Document) (docs : List Document),
        d ∈ topkQuery docs top_k i (some K) → allTokens K d.keyword_filter = true) ∧
    (K ≠ "" → ∀ (d : Document) (docs : List Document),
        d ∈ tpufQuery docs top_k i (some K) → allTokens K d.keyword_filter = true) ∧
    (∀ (d : Document) (docs : List Document),
        d ∈ milvusQuery docs top_k i (some K) → anyToken K d.keyword_filter = true) ∧
    (∀ (d : Document) (store : List PineconeVector),
        d ∈ pineconeQuery store top_k i (some K) →
          ∃ v ∈ store, d = pineconeToDocument v ∧
            v.metadata_keyword_filter.contains K = true) ∧
    (∀ (d : Document) (store : List QdrantPoint),
        d ∈ qdrantQuery store top_k i (some K) →
          ∃ p ∈ store, d = qdrantToDocument p ∧
            p.payload_keyword_filter.contains K = true) := by
  refine ⟨?_, ?_, ?_, ?_, ?_⟩
  · intro d docs h
    rcases mem_filter_take h with ⟨-, hp⟩
    simp only [topkFilterPred, Bool.and_eq_true] at hp
    exact hp.2
  · intro hK d docs h
    rcases mem_filter_take h with ⟨-, hp⟩
    have hmem : TpufCond.containsAllTokens K ∈ tpufFilters i (some K) := by
      simp [tpufFilters, hK]
    have := List.all_eq_true.mp hp _ hmem
    simpa [evalTpufCond] using this
  · intro d docs h
    rcases mem_filter_take h with ⟨-, hp⟩
    have hmem : MilvusCond.textMatch K ∈ milvusFilters i (some K) := by
      simp [milvusFilters]
    have := List.all_eq_true.mp hp _ hmem
    simpa [evalMilvusCond] using this
  · intro d store h
    rcases List.mem_map.mp h with ⟨v, hv, rfl⟩
    rcases mem_filter_take hv with ⟨hvmem, hp⟩
    simp only [pineconeFilterPred, Bool.and_eq_true] at hp
    exact ⟨v, hvmem, rfl, hp.2⟩
  · intro d store h
    rcases List.mem_map.mp h with ⟨p, hp0, rfl⟩
    rcases mem_filter_take hp0 with ⟨hpmem, hp⟩
    simp only [qdrantFilterPred, Bool.and_eq_true] at hp
    exact ⟨p, hpmem, rfl, hp.2⟩

/-- Witness for `C3_keyword_lowering`: applied to TopK at the single-token
filter `"a"` on a singleton candidate list, and to Turbopuffer there too. -/
theorem C3_keyword_lowering_witness :
    allTokens "a" dab.keyword_filter = true ∧ ("a" : String) ≠ "" :=
  ⟨(C3_keyword_lowering "a" none 5).1 dab [dab] (by decide), by decide⟩

/-! ### Collection lifecycle: setup / list_collections / delete_collection

Backend collection registries are modelled as lists of collection names (plus
stored documents for Turbopuffer, whose namespaces come into existence through
writes). Backend create calls are modelled from each service's documented
behaviour, noted on the definitions. -/

/-- `sanitize_collection` from `providers/milvus.py`:
`collection.replace("-", "_")` — a single-character pattern, hence a
character map. -/
def sanitizeChar (c : Char) : Char := if c = '-' then '_' else c

/-- `sanitize_collection(collection)`. -/
def sanitize_collection (s : String) : String :=
  String.mk (s.data.map sanitizeChar)

/-- Milvus backend collection registry. `setup` always supplies the one fixed
schema of `MilvusProvider.setup`, so the registry is keyed by name only. -/
structure MilvusState where
  collections : List String
deriving Repr, DecidableEq

/-- Modelled Milvus `create_collection`: creating a collection that already
exists with the identical schema succeeds as a no-op (the server treats a
same-schema create as idempotent), otherwise the name is registered. -/
def milvusCreateCollection (st : MilvusState) (name : String) : MilvusState :=
  if st.collections.contains name then st
  else { collections := st.collections ++ [name] }

/-- `MilvusProvider.setup`: builds the fixed schema and index params, then
creates and loads the collection under the sanitized name (`load_collection`
does not change the registry). -/
def MilvusProvider.setup (st : MilvusState) (collection : String) : MilvusState :=
  milvusCreateCollection st (sanitize_collection collection)

/-- `MilvusProvider.list_collections`: the backend's names, unmapped. -/
def MilvusProvider.list_collections (st : MilvusState) : List String :=
  st.collections

/-- `MilvusProvider.delete_collection`: drops the sanitized name. -/
def MilvusProvider.delete_collection (st : MilvusState) (collection : String) : MilvusState :=
  { collections := st.collections.filter (fun n => n ≠ sanitize_collection collection) }

/-- Modelled TopK `collections().create`: raises `CollectionAlreadyExistsError`
when the collection exists. -/
def topkCreate (st : List String) (collection : String) : Except String (List String) :=
  if st.contains collection then .error "CollectionAlreadyExistsError"
  else .ok (st ++ [collection])

/-- `TopKProvider.setup`: create, catching only `CollectionAlreadyExistsError`
and treating it as success. -/
def TopKProvider.setup (st : List String) (collection : String) :
    Except String (List String) :=
  match topkCreate st collection with
  | .ok st2 => .ok st2
  | .error e => if e = "CollectionAlreadyExistsError" then .ok st else .error e

/-- `TopKProvider.list_collections`. -/
def TopKProvider.list_collections (st : List String) : List String := st

/-- Modelled Pinecone `create_index`: raises when the index exists. -/
def pineconeCreateIndex (st : List String) (collection : String) :
    Except String (List String) :=
  if st.contains collection then .error "index already exists"
  else .ok (st ++ [collection])

/-- `PineconeProvider.setup`: returns early when `has_index`, else creates. -/
def PineconeProvider.setup (st : List String) (collection : String) :
    Except String (List String) :=
  if st.contains collection then .ok st else pineconeCreateIndex st collection

/-- `PineconeProvider.list_collections` (index names). -/
def PineconeProvider.list_collections (st : List String) : List String := st

/-- Modelled Qdrant `create_collection`: raises when the collection exists. -/
def qdrantCreateCollection (st : List String) (collection : String) :
    Except String (List String) :=
  if st.contains collection then .error "collection already exists"
  else .ok (st ++ [collection])

/-- `QdrantProvider.setup`: guarded by membership in `get_collections`; the
two `create_payload_index` calls do not change the collection registry. -/
def QdrantProvider.setup (st : List String) (collection : String) :
    Except String (List String) :=
  if st.contains collection then .ok st else qdrantCreateCollection st collection

/-- `QdrantProvider.list_collections`. -/
def QdrantProvider.list_collections (st : List String) : List String := st

/-- Turbopuffer backend: namespaces with their stored documents (namespaces
come into existence through the first write). -/
structure TpufState where
  namespaces : List (String × List Document)
deriving Repr, DecidableEq

/-- The existing namespace ids. -/
def tpufNamespaceNames (st : TpufState) : List String :=
  st.namespaces.map Prod.fst

/-- `client.namespace(ns).exists()`. -/
def tpufExists (st : TpufState) (ns : String) : Bool :=
  (tpufNamespaceNames st).contains ns

/-- Insert-or-replace the given rows by id into a namespace's documents. -/
def upsertRowsInto (old rows : List Document) : List Document :=
  rows.foldl
    (fun acc r =>
      if acc.any (fun d => d.id == r.id) then
        acc.map (fun d => if d.id == r.id then r else d)
      else acc ++ [r])
    old

/-- `namespace(ns).write(upsert_rows=rows)`: creates the namespace when
absent. -/
def tpufWriteUpsert (st : TpufState) (ns : String) (rows : List Document) : TpufState :=
  if tpufExists st ns then
    { namespaces := st.namespaces.map
        (fun e => if e.1 == ns then (e.1, upsertRowsInto e.2 rows) else e) }
  else { namespaces := st.namespaces ++ [(ns, upsertRowsInto [] rows)] }

/-- `namespace(ns).write(deletes=ids)`. -/
def tpufWriteDeletes (st : TpufState) (ns : String) (ids : List String) : TpufState :=
  { namespaces := st.namespaces.map
      (fun e => if e.1 == ns then (e.1, e.2.filter (fun d => !(ids.contains d.id))) else e) }

/-- The bootstrap document `TurbopufferProvider.setup` writes and deletes. -/
def tpufBootstrapDoc : Document :=
  { id := "__bootstrap__",
    text := "Hello, world!",
    dense_embedding := some (List.replicate 768 (1 / 10 : ℚ)),
    int_filter := 1,
    keyword_filter := "Hello" }

/-- `TurbopufferProvider.setup`: early return when the namespace exists, else
create it implicitly by upserting a bootstrap document and deleting it by
id. -/
def TurbopufferProvider.setup (st : TpufState) (ns : String) : TpufState :=
  if tpufExists st ns then st
  else tpufWriteDeletes (tpufWriteUpsert st ns [tpufBootstrapDoc]) ns [tpufBootstrapDoc.id]

/-- `TurbopufferProvider.list_collections` (namespace ids). -/
def TurbopufferProvider.list_collections (st : TpufState) : List String :=
  tpufNamespaceNames st

/-! ### C4: idempotent setup -/

/-- C4 counterexample: on Milvus, `setup "x-1"` (twice) registers the
sanitized name `x_1`, so `list_collections` afterwards does NOT report exactly
one collection named `x-1` — it reports zero of that name. -/
theorem C4_counterexample :
    (MilvusProvider.list_collections
        (MilvusProvider.setup (MilvusProvider.setup ⟨[]⟩ "x-1") "x-1")).count "x-1" ≠ 1 := by
  decide

/-- C4 (amended): for every adapter and collection name, a second `setup` on
the already-created collection does not raise and is a no-op, and
`list_collections` afterwards reports exactly one collection under the
backend name for it — the name passed to `setup` for TopK, Pinecone, Qdrant
and Turbopuffer, and the name with every `-` replaced by `_` for Milvus. -/
theorem C4_setup_idempotent (c : String) :
    (MilvusProvider.setup (MilvusProvider.setup ⟨[]⟩ c) c = MilvusProvider.setup ⟨[]⟩ c ∧
      (MilvusProvider.list_collections (MilvusProvider.setup ⟨[]⟩ c)).count
        (sanitize_collection c) = 1) ∧
    (TopKProvider.setup [] c = .ok [c] ∧ TopKProvider.setup [c] c = .ok [c] ∧
      (TopKProvider.list_collections [c]).count c = 1) ∧
    (PineconeProvider.setup [] c = .ok [c] ∧ PineconeProvider.setup [c] c = .ok [c] ∧
      (PineconeProvider.list_collections [c]).count c = 1) ∧
    (QdrantProvider.setup [] c = .ok [c] ∧ QdrantProvider.setup [c] c = .ok [c] ∧
      (QdrantProvider.list_collections [c]).count c = 1) ∧
    (TurbopufferProvider.setup ⟨[]⟩ c = ⟨[(c, [])]⟩ ∧
      TurbopufferProvider.setup ⟨[(c, [])]⟩ c = ⟨[(c, [])]⟩ ∧
      (TurbopufferProvider.list_collections ⟨[(c, [])]⟩).count c = 1) := by
  refine ⟨⟨?_, ?_⟩, ⟨?_, ?_, ?_⟩, ⟨?_, ?_, ?_⟩, ⟨?_, ?_, ?_⟩, ⟨?_, ?_, ?_⟩⟩
  · simp [MilvusProvider.setup, milvusCreateCollection]
  · simp [MilvusProvider.setup, milvusCreateCollection, MilvusProvider.list_collections,
      List.count_cons]
  · simp [TopKProvider.setup, topkCreate]
  · simp [TopKProvider.setup, topkCreate]
  · simp [TopKProvider.list_collections, List.count_cons]
  · simp [PineconeProvider.setup, pineconeCreateIndex]
  · simp [PineconeProvider.setup, pineconeCreateIndex]
  · simp [PineconeProvider.list_collections, List.count_cons]
  · simp [QdrantProvider.setup, qdrantCreateCollection]
  · simp [QdrantProvider.setup, qdrantCreateCollection]
  · simp [QdrantProvider.list_collections, List.count_cons]
  · have hstep : TurbopufferProvider.setup ⟨[]⟩ c
        = tpufWriteDeletes ⟨[(c, [tpufBootstrapDoc])]⟩ c [tpufBootstrapDoc.id] := rfl
    rw [hstep]
    unfold tpufWriteDeletes
    simp only [List.map_cons, List.map_nil, beq_self_eq_true, if_true]
    have h2 : [tpufBootstrapDoc].filter
        (fun d => !(([tpufBootstrapDoc.id] : List String).contains d.id)) = [] := by decide
    rw [h2]
  · simp [TurbopufferProvider.setup, tpufExists, tpufNamespaceNames]
  · simp [TurbopufferProvider.list_collections, tpufNamespaceNames, List.count_cons]

/-! ### C5: cleanup gated by the destructive flag -/

/-- The Provider operations `cleanup_provider` calls, for an arbitrary
backend state type. -/
structure ProviderOps (σ : Type) where
  list_collections : σ → List String
  delete_collection : σ → String → σ

/-- Result of one `cleanup_provider` run: the collections actually passed to
`delete_collection`, in order, and the final backend state. -/
structure CleanupTrace (σ : Type) where
  deletes : List String
  final : σ

/-- `cleanup_provider(provider_name, wet)` from `bench.py`: iterates over the
collections enumerated once up front; deletes each when `wet` is set, else
only logs the would-be deletion. -/
def cleanup_provider {σ : Type} (P : ProviderOps σ) (wet : Bool) (s : σ) :
    CleanupTrace σ :=
  (P.list_collections s).foldl
    (fun acc c =>
      if wet then
        { deletes := acc.deletes ++ [c], final := P.delete_collection acc.final c }
      else acc)
    { deletes := [], final := s }

lemma foldl_const {α β : Type} (l : List β) (a : α) :
    l.foldl (fun acc _ => acc) a = a := by
  induction l generalizing a with
  | nil => rfl
  | cons b bs ih => simpa [List.foldl] using ih a

lemma cleanup_wet_deletes {σ : Type} (P : ProviderOps σ) (cols : List String)
    (acc : CleanupTrace σ) :
    (cols.foldl
      (fun acc c =>
        { deletes := acc.deletes ++ [c], final := P.delete_collection acc.final c })
      acc).deletes = acc.deletes ++ cols := by
  induction cols generalizing acc with
  | nil => simp
  | cons c cs ih => simp [List.foldl, ih]

/-- C5: with the destructive flag (`wet`) unset, `cleanup_provider` calls
`delete_collection` zero times and leaves the backend state unchanged; with it
set, it calls `delete_collection` exactly once for each collection returned by
`list_collections`, in order, and for no other collection. -/
theorem C5_cleanup_destructive_gate {σ : Type} (P : ProviderOps σ) (s : σ) :
    (cleanup_provider P false s).deletes = [] ∧
    (cleanup_provider P false s).final = s ∧
    (cleanup_provider P true s).deletes = P.list_collections s := by
  refine ⟨?_, ?_, ?_⟩
  · exact congrArg CleanupTrace.deletes (foldl_const (P.list_collections s) ⟨[], s⟩)
  · exact congrArg CleanupTrace.final (foldl_const (P.list_collections s) ⟨[], s⟩)
  · exact cleanup_wet_deletes P (P.list_collections s) ⟨[], s⟩

/-! ### C10: the Milvus name mapping -/

lemma sanitizeChar_idem (c : Char) : sanitizeChar (sanitizeChar c) = sanitizeChar c := by
  by_cases h : c = '-' <;> simp [sanitizeChar, h]

lemma sanitizeChar_ne_dash (c : Char) : sanitizeChar c ≠ '-' := by
  by_cases h : c = '-' <;> simp [sanitizeChar, h]

lemma dash_not_mem_sanitize (s : String) : '-' ∉ (sanitize_collection s).data := by
  intro hmem
  rcases List.mem_map.mp hmem with ⟨c, -, hc⟩
  exact sanitizeChar_ne_dash c hc

lemma sanitize_fixed_of_no_dash {s : String} (h : '-' ∉ s.data) :
    sanitize_collection s = s := by
  show String.mk (s.data.map sanitizeChar) = s
  have : s.data.map sanitizeChar = s.data := by
    have := List.map_congr_left (l := s.data) (f := sanitizeChar) (g := id)
      (fun c hc => by
        have hcne : c ≠ '-' := fun hce => h (hce ▸ hc)
        simp [sanitizeChar, hcne])
    simpa using this
  rw [this]

lemma sanitize_ne_of_dash {s : String} (h : '-' ∈ s.data) :
    sanitize_collection s ≠ s := by
  intro he
  exact dash_not_mem_sanitize s (he.symm ▸ h)

/-- C10: `sanitize_collection` maps `-` to `_` and is idempotent, so applying
`delete_collection` to a `-`-free name returned by `list_collections` targets
exactly that backend collection; and after `setup c` for a name `c`
containing `-`, `list_collections` reports the underscored name — never `c`
itself, provided the backend holds only sanitize-fixed names (the invariant of
collections this system created). -/
theorem C10_sanitize_collection_mapping :
    (∀ s : String, sanitize_collection (sanitize_collection s) = sanitize_collection s) ∧
    (∀ (st : MilvusState) (n : String), '-' ∉ n.data →
        MilvusProvider.delete_collection st n =
          ⟨st.collections.filter (fun m => m ≠ n)⟩) ∧
    (∀ (st : MilvusState) (c : String), '-' ∈ c.data →
        sanitize_collection c ∈
          MilvusProvider.list_collections (MilvusProvider.setup st c) ∧
        ((∀ m ∈ st.collections, '-' ∉ m.data) →
          c ∉ MilvusProvider.list_collections (MilvusProvider.setup st c))) := by
  refine ⟨?_, ?_, ?_⟩
  · intro s
    show String.mk (((s.data.map sanitizeChar)).map sanitizeChar) = _
    rw [List.map_map]
    have : (sanitizeChar ∘ sanitizeChar) = sanitizeChar := funext sanitizeChar_idem
    rw [this]
    rfl
  · intro st n hn
    show ({ collections := st.collections.filter (fun m => m ≠ sanitize_collection n) } :
        MilvusState) = _
    rw [sanitize_fixed_of_no_dash hn]
  · intro st c hc
    constructor
    · show sanitize_collection c ∈
        (milvusCreateCollection st (sanitize_collection c)).collections
      by_cases h : sanitize_collection c ∈ st.collections
      · simpa [milvusCreateCollection, h] using h
      · simp [milvusCreateCollection, h]
    · intro hinv
      show c ∉ (milvusCreateCollection st (sanitize_collection c)).collections
      have hcmem : c ∉ st.collections := fun hmem => hinv c hmem hc
      have hcne : sanitize_collection c ≠ c := sanitize_ne_of_dash hc
      by_cases h : sanitize_collection c ∈ st.collections
      · have hl : milvusCreateCollection st (sanitize_collection c) = st := by
          simp [milvusCreateCollection, h]
        rw [hl]
        exact hcmem
      · have hl : milvusCreateCollection st (sanitize_collection c)
            = { collections := st.collections ++ [sanitize_collection c] } := by
          simp [milvusCreateCollection, h]
        rw [hl]
        simp only [List.mem_append, List.mem_singleton]
        rintro (hmem | he)
        · exact hcmem hmem
        · exact hcne he.symm

/-- Witness for `C10_sanitize_collection_mapping` at concrete inputs:
idempotence on `a-b`, deletion targeting the listed name `x_1`, and the
hyphenated name `x-1` never appearing in the listing after its setup. -/
theorem C10_sanitize_collection_mapping_witness :
    sanitize_collection (sanitize_collection "a-b") = sanitize_collection "a-b" ∧
    MilvusProvider.delete_collection ⟨["x_1"]⟩ "x_1" = ⟨[]⟩ ∧
    "x-1" ∉ MilvusProvider.list_collections (MilvusProvider.setup ⟨["x_1"]⟩ "x-1") := by
  refine ⟨C10_sanitize_collection_mapping.1 "a-b", ?_, ?_⟩
  · have h := C10_sanitize_collection_mapping.2.1 ⟨["x_1"]⟩ "x_1" (by decide)
    rw [h]
    decide
  · exact (C10_sanitize_collection_mapping.2.2 ⟨["x_1"]⟩ "x-1" (by decide)).2
      (by decide)

/-! ### Task matrix (`bench.py` entrypoints) -/

/-- `list_sizes(only)` from `bench.py`. -/
def list_sizes : Option String → List String
  | none => ["100k", "1m", "10m"]
  | some only => ["100k", "1m", "10m"].filter (fun s => s == only)

/-- The provider table of `list_providers`: (region, provider,
(batch_size, concurrency)). -/
def providersTable : List (String × String × Nat × Nat) :=
  [("eu", "topk", 2000, 8),
   ("eu", "milvus", 2000, 8),
   ("eu", "turbopuffer", 2000, 8),
   ("eu", "qdrant", 2000, 4),
   ("us", "pinecone", 500, 12)]

/-- `list_providers(only)` from `bench.py`. -/
def list_providers : Option String → List (String × String × Nat × Nat)
  | none => providersTable
  | some only => providersTable.filter (fun t => t.2.1 == only)

/-- One task spawned by the `ingest` entrypoint (arguments of
`run_ingest_bench`, plus the region whose runner receives it). -/
structure IngestTask where
  benchmark_id : String
  provider_name : String
  region : String
  size : String
  batch_size : Nat
  concurrency : Nat
deriving Repr, DecidableEq

/-- One task spawned by the `qps`, `filters` or `rw` entrypoints (arguments
of the respective `run_*_bench`, plus the region). -/
structure QpsTask where
  benchmark_id : String
  provider_name : String
  region : String
  size : String
  timeout : Int
  warmup : Bool
deriving Repr, DecidableEq

/-- The task list the `ingest` entrypoint submits: the generator
`for size in sizes for region, provider, (batch_size, concurrency) in providers`. -/
def ingestTasks (size provider : Option String) (benchmark_id : String) :
    List IngestTask :=
  (list_sizes size).flatMap fun s =>
    (list_providers provider).map fun t =>
      { benchmark_id, provider_name := t.2.1, region := t.1, size := s,
        batch_size := t.2.2.1, concurrency := t.2.2.2 }

/-- The task list the `qps` entrypoint submits: the generator
`for size in sizes for region, provider, _ in providers`. -/
def qpsTasks (size provider : Option String) (timeout : Int) (warmup : Bool)
    (benchmark_id : String) : List QpsTask :=
  (list_sizes size).flatMap fun s =>
    (list_providers provider).map fun t =>
      { benchmark_id, provider_name := t.2.1, region := t.1, size := s,
        timeout, warmup }

/-- The task list the `filters` entrypoint submits (same generator shape as
`qps`, spawning `run_filter_bench`). -/
def filtersTasks (size provider : Option String) (timeout : Int) (warmup : Bool)
    (benchmark_id : String) : List QpsTask :=
  (list_sizes size).flatMap fun s =>
    (list_providers provider).map fun t =>
      { benchmark_id, provider_name := t.2.1, region := t.1, size := s,
        timeout, warmup }

/-- The task list the `rw` entrypoint submits (same generator shape as `qps`,
spawning `run_rw_bench`). -/
def rwTasks (size provider : Option String) (timeout : Int) (warmup : Bool)
    (benchmark_id : String) : List QpsTask :=
  (list_sizes size).flatMap fun s =>
    (list_providers provider).map fun t =>
      { benchmark_id, provider_name := t.2.1, region := t.1, size := s,
        timeout, warmup }

lemma length_flatMap_map {α β γ : Type} (l : List α) (l2 : List β) (f : α → β → γ) :
    (l.flatMap fun a => l2.map (f a)).length = l.length * l2.length := by
  induction l with
  | nil => simp
  | cons a as ih => simp [ih, Nat.succ_mul]; omega

/-- C6 counterexample: with no size/provider override, the `qps` entrypoint
spawns one task per (size, provider) pair — 15 tasks, not one per provider
(5): like `ingest`, it iterates the full Cartesian product, and each spawned
`run_qps_bench` receives a single size. -/
theorem C6_counterexample :
    (qpsTasks none none 30 true "bid").length ≠ (list_providers none).length := by
  decide

/-- C6 (amended): every mode — QPS, filter sweep, read/write AND ingest —
produces one task per (size, provider) pair of the Cartesian product of the
requested sizes and provider/region pairs; the non-ingest modes do not
collapse to one task per provider, since each spawned task takes a single
size. -/
theorem C6_task_matrix (so po : Option String) (timeout : Int) (warmup : Bool)
    (bid : String) :
    (qpsTasks so po timeout warmup bid).length
        = (list_sizes so).length * (list_providers po).length ∧
    (filtersTasks so po timeout warmup bid).length
        = (list_sizes so).length * (list_providers po).length ∧
    (rwTasks so po timeout warmup bid).length
        = (list_sizes so).length * (list_providers po).length ∧
    (ingestTasks so po bid).length
        = (list_sizes so).length * (list_providers po).length ∧
    (qpsTasks so po timeout warmup bid).map (fun τ => (τ.size, τ.provider_name))
        = (ingestTasks so po bid).map (fun τ => (τ.size, τ.provider_name)) ∧
    (filtersTasks so po timeout warmup bid).map (fun τ => (τ.size, τ.provider_name))
        = (ingestTasks so po bid).map (fun τ => (τ.size, τ.provider_name)) ∧
    (rwTasks so po timeout warmup bid).map (fun τ => (τ.size, τ.provider_name))
        = (ingestTasks so po bid).map (fun τ => (τ.size, τ.provider_name)) := by
  refine ⟨length_flatMap_map _ _ _, length_flatMap_map _ _ _,
    length_flatMap_map _ _ _, length_flatMap_map _ _ _, ?_, ?_, ?_⟩ <;>
  · simp only [qpsTasks, filtersTasks, rwTasks, ingestTasks, List.map_flatMap,
      List.map_map]
    rfl

/-! ### Benchmark protocols (`run_qps_bench`, `run_filter_bench`)

The `tb.query` native call is modelled by the `QueryConfig` it receives; a
protocol run is the ordered trace of those configs plus the
`tb.write_metrics` destination. -/

/-- The `QueryConfig` fields `bench.py` passes to `tb.query`. The native
module's defaults for the flags omitted at some call sites are modelled from
the spec (`warmup`/`read_write` default to false — a pass is measured unless
flagged as warmup). -/
structure QueryConfig where
  size : String
  collection : String
  cache_dir : String := "/tmp/topk-bench"
  concurrency : Nat
  queries : String
  timeout : Int
  top_k : Nat
  int_filter : Option Int := none
  keyword_filter : Option String := none
  warmup : Bool := false
  read_write : Bool := false
  mode : String
deriving Repr, DecidableEq

/-- The collection name of a task: `collection_prefix` is the constant x in
`bench.py`, joined as x-size. -/
def collName (size : String) : String := "x" ++ "-" ++ size

/-- The queries dataset location for a size. -/
def queriesPath (size : String) : String :=
  "s3://topk-bench/queries-" ++ size ++ ".parquet"

/-- Trace of one `run_*_bench` call: the `tb.query` configs issued in order
(strictly sequentially), and the `tb.write_metrics` destination paths. -/
structure BenchTrace where
  queries : List QueryConfig
  metrics_writes : List String
deriving Repr, DecidableEq

/-- Modelled from the spec: the native `tb.query` records one metrics entry
per measured pass while a warmup pass is discarded from metrics, and
`tb.write_metrics` persists the recorded entries; the per-pass records one
invocation persists are therefore its non-warmup query configs, in order. -/
def persistedMetrics (t : BenchTrace) : List QueryConfig :=
  t.queries.filter (fun c => !c.warmup)

/-- The warmup `QueryConfig` of `run_qps_bench`: concurrency 1, timeout
doubled, both filters absent. -/
def qpsWarmupConfig (size : String) (timeout : Int) : QueryConfig :=
  { size := size, collection := collName size, concurrency := 1,
    queries := queriesPath size, timeout := timeout * 2, top_k := 10,
    int_filter := none, keyword_filter := none, warmup := true, mode := "qps" }

/-- A measured `QueryConfig` of `run_qps_bench` at the given concurrency. -/
def qpsMeasuredConfig (size : String) (timeout : Int) (concurrency : Nat) :
    QueryConfig :=
  { size := size, collection := collName size, concurrency := concurrency,
    queries := queriesPath size, timeout := timeout, top_k := 10,
    int_filter := none, keyword_filter := none, warmup := false, mode := "qps" }

/-- `run_qps_bench` from `bench.py`: optional warmup query pass, then the
measured passes over `concurrency in [1, 2, 4, 8]`, then one
`tb.write_metrics` call. -/
def run_qps_bench (size provider_name : String) (timeout : Int)
    (benchmark_id : String) (warmup : Bool) : BenchTrace :=
  { queries :=
      (if warmup then [qpsWarmupConfig size timeout] else []) ++
        ([1, 2, 4, 8].map (qpsMeasuredConfig size timeout)),
    metrics_writes :=
      ["s3://my-results-bucket/" ++ benchmark_id ++ "/" ++ provider_name
        ++ "_qps_" ++ size ++ ".parquet"] }

/-- The warmup `QueryConfig` of `run_filter_bench`: concurrency 1, timeout
doubled, and the maximal-selectivity filters `int_filter=10000` (100%) and
`keyword_filter=10000` (100%). -/
def filterWarmupConfig (size : String) (timeout : Int) : QueryConfig :=
  { size := size, collection := collName size, concurrency := 1,
    queries := queriesPath size, timeout := timeout * 2, top_k := 10,
    int_filter := some 10000, keyword_filter := some "10000", warmup := true,
    mode := "filter" }

/-- A measured `QueryConfig` of `run_filter_bench` for one (int, keyword)
filter pair. -/
def filterMeasuredConfig (size : String) (timeout : Int)
    (i : Option Int) (kw : Option String) : QueryConfig :=
  { size := size, collection := collName size, concurrency := 1,
    queries := queriesPath size, timeout := timeout, top_k := 10,
    int_filter := i, keyword_filter := kw, mode := "filter" }

/-- The fixed filter sweep of `run_filter_bench`: unfiltered, then integer
thresholds 10000/1000/100 (100%, 10%, 1%), then keyword values
10000/01000/00100 (100%, 10%, 1%). -/
def filterSweepPairs : List (Option Int × Option String) :=
  [(none, none),
   (some 10000, none),
   (some 1000, none),
   (some 100, none),
   (none, some "10000"),
   (none, some "01000"),
   (none, some "00100")]

/-- `run_filter_bench` from `bench.py`: optional maximal-selectivity warmup
pass, then the seven fixed measured passes, then one `tb.write_metrics`
call. -/
def run_filter_bench (size provider_name : String) (timeout : Int)
    (benchmark_id : String) (warmup : Bool) : BenchTrace :=
  { queries :=
      (if warmup then [filterWarmupConfig size timeout] else []) ++
        (filterSweepPairs.map (fun p => filterMeasuredConfig size timeout p.1 p.2)),
    metrics_writes :=
      ["s3://my-results-bucket/" ++ benchmark_id ++ "/" ++ provider_name
        ++ "_filter_" ++ size ++ ".parquet"] }

/-- C8: a QPS task with warmup enabled performs exactly one warmup pass
(concurrency 1, timeout doubled, both filters absent) excluded from persisted
metrics, then exactly four measured passes strictly sequentially at
concurrency 1, 2, 4, 8 in that order with no filters and the original
timeout, each persisted as its own metrics entry; the invocation writes one
artifact keyed by the benchmark_id, and every task of one invocation carries
the single benchmark_id generated for it. -/
theorem C8_qps_protocol (size provider : String) (timeout : Int) (bid : String)
    (so po : Option String) (w : Bool) :
    (run_qps_bench size provider timeout bid true).queries.filter (fun c => c.warmup)
        = [qpsWarmupConfig size timeout] ∧
    ((qpsWarmupConfig size timeout).concurrency = 1 ∧
      (qpsWarmupConfig size timeout).timeout = timeout * 2 ∧
      (qpsWarmupConfig size timeout).int_filter = none ∧
      (qpsWarmupConfig size timeout).keyword_filter = none) ∧
    persistedMetrics (run_qps_bench size provider timeout bid true)
        = [1, 2, 4, 8].map (qpsMeasuredConfig size timeout) ∧
    (persistedMetrics (run_qps_bench size provider timeout bid true)).map
        (fun c => (c.concurrency, c.timeout, c.int_filter, c.keyword_filter, c.mode))
        = [(1, timeout, none, none, "qps"), (2, timeout, none, none, "qps"),
           (4, timeout, none, none, "qps"), (8, timeout, none, none, "qps")] ∧
    (run_qps_bench size provider timeout bid true).metrics_writes
        = ["s3://my-results-bucket/" ++ bid ++ "/" ++ provider ++ "_qps_" ++ size
            ++ ".parquet"] ∧
    (qpsTasks so po timeout w bid).all (fun τ => τ.benchmark_id == bid) = true := by
  refine ⟨?_, ⟨rfl, rfl, rfl, rfl⟩, ?_, ?_, rfl, ?_⟩
  · simp [run_qps_bench, qpsWarmupConfig, qpsMeasuredConfig]
  · simp [persistedMetrics, run_qps_bench, qpsWarmupConfig, qpsMeasuredConfig]
  · simp [persistedMetrics, run_qps_bench, qpsWarmupConfig, qpsMeasuredConfig]
  · rw [List.all_eq_true]
    intro τ hτ
    simp only [qpsTasks, List.mem_flatMap, List.mem_map] at hτ
    rcases hτ with ⟨s, -, t, -, rfl⟩
    exact beq_self_eq_true bid

/-- C9: the filter-sweep measured phase is exactly seven passes, strictly
sequential at concurrency 1, in the fixed order: no filter; int_filter
10000, 1000, 100 with no keyword filter; then keyword_filter 10000, 01000,
00100 with no int filter — all at the original timeout; the optional warmup
pass before them uses the maximal-selectivity filters int_filter = 10000 and
keyword_filter = 10000 with timeout doubled. -/
theorem C9_filter_sweep_protocol (size provider : String) (timeout : Int)
    (bid : String) (w : Bool) :
    (run_filter_bench size provider timeout bid w).queries.filter (fun c => !c.warmup)
        = filterSweepPairs.map (fun p => filterMeasuredConfig size timeout p.1 p.2) ∧
    ((run_filter_bench size provider timeout bid w).queries.filter
        (fun c => !c.warmup)).map
        (fun c => (c.concurrency, c.int_filter, c.keyword_filter, c.timeout, c.mode))
        = [(1, none, none, timeout, "filter"),
           (1, some 10000, none, timeout, "filter"),
           (1, some 1000, none, timeout, "filter"),
           (1, some 100, none, timeout, "filter"),
           (1, none, some "10000", timeout, "filter"),
           (1, none, some "01000", timeout, "filter"),
           (1, none, some "00100", timeout, "filter")] ∧
    (run_filter_bench size provider timeout bid true).queries.filter (fun c => c.warmup)
        = [filterWarmupConfig size timeout] ∧
    ((filterWarmupConfig size timeout).concurrency = 1 ∧
      (filterWarmupConfig size timeout).int_filter = some 10000 ∧
      (filterWarmupConfig size timeout).keyword_filter = some "10000" ∧
      (filterWarmupConfig size timeout).timeout = timeout * 2) ∧
    (run_filter_bench size provider timeout bid w).metrics_writes
        = ["s3://my-results-bucket/" ++ bid ++ "/" ++ provider ++ "_filter_" ++ size
            ++ ".parquet"] := by
  refine ⟨?_, ?_, ?_, ⟨rfl, rfl, rfl, rfl⟩, rfl⟩
  · cases w <;>
      simp [run_filter_bench, filterWarmupConfig, filterMeasuredConfig, filterSweepPairs]
  · cases w <;>
      simp [run_filter_bench, filterWarmupConfig, filterMeasuredConfig, filterSweepPairs]
  · simp [run_filter_bench, filterWarmupConfig, filterMeasuredConfig, filterSweepPairs]

/-! ### Round trip through the list-storing adapters (Pinecone, Qdrant) -/

/-- `index.upsert` entry handling: insert-or-replace by id. -/
def pineconeUpsertOne (store : List PineconeVector) (v : PineconeVector) :
    List PineconeVector :=
  if store.any (fun w => w.id == v.id) then
    store.map (fun w => if w.id == v.id then v else w)
  else store ++ [v]

/-- `PineconeProvider.upsert`: the docs converted to stored vectors
(metadata keyword list = `split(" ")`), upserted in order. -/
def PineconeProvider.upsert (store : List PineconeVector) (docs : List Document) :
    List PineconeVector :=
  docs.foldl (fun st d => pineconeUpsertOne st (pineconeVectorOfDoc d)) store

/-- `PineconeProvider.query_by_id`: `index.fetch(ids=[id])` mapped through
`to_document`. -/
def PineconeProvider.query_by_id (store : List PineconeVector) (id : String) :
    List Document :=
  (store.filter (fun v => v.id == id)).map pineconeToDocument

/-- Upsert into a fresh Pinecone index, then fetch back by id. -/
def pineconeRoundtrip (d : Document) : List Document :=
  PineconeProvider.query_by_id (PineconeProvider.upsert [] [d]) d.id

/-- `client.upsert` point handling: insert-or-replace by (integer) id. -/
def qdrantUpsertOne (store : List QdrantPoint) (p : QdrantPoint) :
    List QdrantPoint :=
  if store.any (fun q => q.id == p.id) then
    store.map (fun q => if q.id == p.id then p else q)
  else store ++ [p]

/-- The `points=[PointStruct(id=int(doc.id), ...) for doc in docs]`
comprehension of `QdrantProvider.upsert`: the first non-integer id raises. -/
def qdrantBuildPoints : List Document → Except String (List QdrantPoint)
  | [] => .ok []
  | d :: ds =>
      match qdrantPointOfDoc d with
      | .error e => .error e
      | .ok p =>
          match qdrantBuildPoints ds with
          | .error e => .error e
          | .ok ps => .ok (p :: ps)

/-- `QdrantProvider.upsert` (the except clause re-raises unchanged after
printing, so errors propagate). -/
def QdrantProvider.upsert (store : List QdrantPoint) (docs : List Document) :
    Except String (List QdrantPoint) :=
  match qdrantBuildPoints docs with
  | .error e => .error e
  | .ok ps => .ok (ps.foldl qdrantUpsertOne store)

/-- `QdrantProvider.query_by_id`: `retrieve(ids=[int(id)])` mapped through
`to_document`. -/
def QdrantProvider.query_by_id (store : List QdrantPoint) (id : String) :
    Except String (List Document) :=
  match pyInt id with
  | some n => .ok ((store.filter (fun p => p.id == n)).map qdrantToDocument)
  | none => .error ("ValueError: invalid literal for int: " ++ id)

/-- Upsert into a fresh Qdrant collection, then fetch back by id. -/
def qdrantRoundtrip (d : Document) : Except String (List Document) :=
  match QdrantProvider.upsert [] [d] with
  | .ok st => QdrantProvider.query_by_id st d.id
  | .error e => .error e

/-- Document with a non-canonical decimal id, used by the C7
counterexample. -/
def d01 : Document :=
  { id := "01", text := "t", int_filter := 3, keyword_filter := "a" }

/-- C7 counterexample: Qdrant stores `int(doc.id)` and returns
`str(point.id)`, so the document with id 01 comes back with id 1 — the
returned id does not equal the upserted one. -/
theorem C7_counterexample :
    qdrantRoundtrip d01 =
      .ok [{ id := "1", text := "t", int_filter := 3, keyword_filter := "a" }] ∧
    ("1" : String) ≠ "01" := by
  constructor
  · rfl
  · decide

/-- C7 (amended): a document upserted through Pinecone and fetched by id
comes back with id, text and int_filter equal to the original and with the
very same keyword_filter string (hence equal token set); the same holds
through Qdrant provided the document id is a canonical decimal integer
string (str(int(id)) = id), since Qdrant stores ids as integers parsed from
the document id. -/
theorem C7_roundtrip (d : Document) :
    pineconeRoundtrip d =
      [{ id := d.id, text := d.text, int_filter := d.int_filter,
         keyword_filter := d.keyword_filter }] ∧
    (∀ n : Int, pyInt d.id = some n → toString n = d.id →
      qdrantRoundtrip d =
        .ok [{ id := d.id, text := d.text, int_filter := d.int_filter,
               keyword_filter := d.keyword_filter }]) := by
  constructor
  · show PineconeProvider.query_by_id
        (pineconeUpsertOne [] (pineconeVectorOfDoc d)) d.id = _
    simp [pineconeUpsertOne, PineconeProvider.query_by_id, pineconeVectorOfDoc,
      pineconeToDocument, pyJoin_pySplit]
  · intro n h1 h2
    have hpt : qdrantPointOfDoc d =
        .ok { id := n, payload_text := d.text, payload_int_filter := d.int_filter,
              payload_keyword_filter := pySplitSpace d.keyword_filter } := by
      simp [qdrantPointOfDoc, h1]
    have hb : qdrantBuildPoints [d] =
        .ok [{ id := n, payload_text := d.text, payload_int_filter := d.int_filter,
               payload_keyword_filter := pySplitSpace d.keyword_filter }] := by
      simp [qdrantBuildPoints, hpt]
    show (match QdrantProvider.upsert [] [d] with
          | .ok st => QdrantProvider.query_by_id st d.id
          | .error e => .error e) = _
    rw [show QdrantProvider.upsert [] [d] =
        .ok [{ id := n, payload_text := d.text, payload_int_filter := d.int_filter,
               payload_keyword_filter := pySplitSpace d.keyword_filter }] by
      simp [QdrantProvider.upsert, hb, qdrantUpsertOne]]
    show QdrantProvider.query_by_id _ d.id = _
    simp [QdrantProvider.query_by_id, h1, qdrantToDocument, pyJoin_pySplit, h2]

/-- Witness for `C7_roundtrip`: the Qdrant branch applied to a document with
the canonical decimal id 7. -/
theorem C7_roundtrip_witness :
    qdrantRoundtrip { id := "7", text := "t", int_filter := 3, keyword_filter := "a b" } =
      .ok [{ id := "7", text := "t", int_filter := 3, keyword_filter := "a b" }] :=
  (C7_roundtrip { id := "7", text := "t", int_filter := 3, keyword_filter := "a b" }).2
    7 (by rfl) (by rfl)

end TopkBench
